import Mathlib

/-!
Shallow embedding of the MRC control-plane server core (headers under
`src/internal/control_plane/` and the client-side pipeline reconciler), together
with proofs about the claims of the natural-language specification.

Conventions:
* C++ `std::uint64_t` / `std::size_t` values are embedded as `Nat`; wherever the
  64-bit width matters the bound `< 2 ^ 64` is explicit.
* `Expected<T>` (a value or a `srf::internal::Error`) is embedded as
  `Except IError T`.
* Ordered containers (`std::map`, `std::set`) are embedded as association lists
  / lists together with the operations the code performs on them; where only
  cardinality matters, `Finset` is used.
-/

/-- Error codes from `protos::ErrorCode` (spec §6 lists the ones the core uses). -/
inductive ErrorCode where
  | Ok
  | InstanceError
  | InvalidRole
  | DuplicateUcxAddress
  | TagExhausted
  | ServiceMismatch
  deriving DecidableEq, Repr

/-- An internal `srf::internal::Error` carried inside a failed `Expected`. -/
structure IError where
  code : ErrorCode
  message : String
  deriving DecidableEq, Repr

/-- The constructor `Error::create(msg)`: the generic constructor used by the in-source helpers
(`check_unique_repeated_field`, `unpack_request`); it carries no specific
client-facing code (the write path stamps `InstanceError` on the wire). -/
def IError.create (msg : String) : IError := ⟨ErrorCode.InstanceError, msg⟩

/-- Values of `protos::EventType` handled by the envelope layer. -/
inductive EventType where
  | Request
  | Response
  | Update
  | Error
  | ClientEventStreamDisconnect
  deriving DecidableEq, Repr

/-- A `protos::Error` message: the typed payload the server packs into a
response envelope when a handler fails. -/
structure ProtoError where
  code : ErrorCode
  message : String
  deriving DecidableEq, Repr

/-! ### `Server::check_unique_repeated_field` (src/src/internal/control_plane/server.hpp:129-138)

```cpp
template <typename T>
static Expected<std::set<T>> check_unique_repeated_field(const google::protobuf::RepeatedPtrField<T>& items)
{
    std::set<T> unique(items.begin(), items.end());
    if (unique.size() != items.size())
    {
        return Error::create("non-unique repeated field; duplicated detected");
    }
    return unique;
}
```
-/

def check_unique_repeated_field {T : Type} [DecidableEq T] (items : List T) :
    Except IError (Finset T) :=
  let unique : Finset T := items.toFinset
  if unique.card ≠ items.length then
    Except.error (IError.create "non-unique repeated field; duplicated detected")
  else
    Except.ok unique

/-! ### Tag validity (spec §4.A; `Tagged::valid_tag` is declared at
src/src/internal/control_plane/server/tagged_service.hpp:49 but its body is not
part of the sources). -/

/-- Modelled from the spec: the body of `Tagged::valid_tag` is not in the
sources (only its declaration); spec §4.A gives the predicate
`valid(tag, service_id): (tag >> 32) == service_id && (tag & 0xFFFF) != 0`. -/
def valid_tag (service_id : Nat) (tag : Nat) : Bool :=
  (tag >>> 32 == service_id) && (tag &&& 0xFFFF != 0)

/-! ### `Server::unpack_request` (src/src/internal/control_plane/server.hpp:140-153)

The wire `Event` envelope carries a `tag`, an `event_type` and a single typed
payload (spec §6): either a packed typed blob or a `protos::Error`.  The `Any`
blob is embedded abstractly as a type `A` together with the partial unpacking
function `UnpackTo : A → Option T` of the protobuf runtime. -/

/-- The payload slot of an `Event` envelope: a packed typed blob, a
`protos::Error`, or nothing. -/
inductive EventPayload (A : Type) where
  | none
  | message (blob : A)
  | error (e : ProtoError)
  deriving DecidableEq, Repr

/-- A received `protos::Event` envelope. -/
structure EventMsg (A : Type) where
  tag : Nat
  event : EventType
  payload : EventPayload A
  deriving DecidableEq, Repr

namespace EventMsg

def has_message {A : Type} (m : EventMsg A) : Bool :=
  match m.payload with
  | EventPayload.message _ => true
  | _ => false

def has_error {A : Type} (m : EventMsg A) : Bool :=
  match m.payload with
  | EventPayload.error _ => true
  | _ => false

/-- Accessor `event.msg.message()` — meaningful only when `has_message`. -/
def message {A : Type} [Inhabited A] (m : EventMsg A) : A :=
  match m.payload with
  | EventPayload.message b => b
  | _ => default

/-- Accessor `event.msg.error()` — meaningful only when `has_error`. -/
def error (m : EventMsg A) : ProtoError :=
  match m.payload with
  | EventPayload.error e => e
  | _ => ⟨ErrorCode.Ok, ""⟩

end EventMsg

/-- Embedding of the in-source template:
```cpp
template <typename T>
static Expected<T> unpack_request(event_t& event)
{
    T msg;
    if (event.msg.has_message() && event.msg.message().UnpackTo(&msg))
    {
        return msg;
    }
    if (event.msg.has_error())
    {
        return Error::create(event.msg.error().message());
    }
    return Error::create("unable to unpack request; client an unexpected message type");
}
```
`UnpackTo` is the abstract unpacking function for the requested type `T`. -/
def unpack_request {A T : Type} [Inhabited A] (UnpackTo : A → Option T)
    (msg : EventMsg A) : Except IError T :=
  if msg.has_message then
    match UnpackTo msg.message with
    | some v => Except.ok v
    | Option.none =>
      if msg.has_error then
        Except.error (IError.create msg.error.message)
      else
        Except.error (IError.create "unable to unpack request; client an unexpected message type")
  else
    if msg.has_error then
      Except.error (IError.create msg.error.message)
    else
      Except.error (IError.create "unable to unpack request; client an unexpected message type")

/-! ### `Server::unary_response` (src/src/internal/control_plane/server.hpp:156-175)

```cpp
template <typename MessageT>
Expected<> Server::unary_response(event_t& event, Expected<MessageT>&& message)
{
    if (!message)
    {
        protos::Error error;
        error.set_code(protos::ErrorCode::InstanceError);
        error.set_message(message.error().message());
        return unary_response<protos::Error>(event, std::move(error));
    }
    srf::protos::Event out;
    out.set_tag(event.msg.tag());
    out.set_event(protos::EventType::Response);
    out.mutable_message()->PackFrom(*message);
    if (event.stream->await_write(std::move(out)) != channel::Status::success)
    {
        return Error::create("failed to write to channel");
    }
    return {};
}
```
The `google::protobuf::Any` produced by `PackFrom` is embedded as `AnyPacked`:
either a packed `protos::Error` (the instantiation the failure branch recurses
with) or an opaque packed message of another type.  The recursion is unfolded:
the failure branch re-enters with `Expected<protos::Error>` holding the error
as its *success* value, hence takes the success path. -/

/-- A `google::protobuf::Any` as produced by `PackFrom` in the write path. -/
inductive AnyPacked where
  | packedError (e : ProtoError)
  | packedMsg (typeName : String)
  deriving DecidableEq, Repr

/-- An outgoing `protos::Event` envelope built by `unary_response`. -/
structure OutEvent where
  tag : Nat
  event : EventType
  message : AnyPacked
  deriving DecidableEq, Repr

/-- Embedding of `unary_response` with the recursion unfolded.  `pack` is `PackFrom` for the
handler's response type; `write_status` is the result of
`event.stream->await_write` for the single write performed.  Returns the
written envelope together with the `Expected<>` result. -/
def unary_response {M : Type} (pack : M → AnyPacked) (event_tag : Nat)
    (write_status : Bool) (message : Except IError M) : OutEvent × Except IError Unit :=
  match message with
  | Except.error e =>
    let err : ProtoError := ⟨ErrorCode.InstanceError, e.message⟩
    let out : OutEvent := ⟨event_tag, EventType.Response, AnyPacked.packedError err⟩
    (out, if write_status then Except.ok () else Except.error (IError.create "failed to write to channel"))
  | Except.ok m =>
    let out : OutEvent := ⟨event_tag, EventType.Response, pack m⟩
    (out, if write_status then Except.ok () else Except.error (IError.create "failed to write to channel"))

/-! ### `Role` (src/src/internal/control_plane/server/subscription_service.hpp:78-109)

The header (in the sources) declares the fields with initial values
`m_nonce{1}`, `m_last_update{1}` and documents: "When either list is updated,
the Role's nonce is incremented.  When the nonce is greater than the value of
the nonce on last update, an update can be issued by calling issue_update.  An
issue_update will send a protos::SubscriptionServiceUpdate to all subscribers
containing the (tag, instance_id) tuple for each item in the members list."
The method bodies are not part of the sources; they are modelled from the spec
(§4.C).  `std::map` is embedded as an association list ordered by key;
`ClientInstance` values are represented by their `instance_id`. -/

/-- Ordered-map insertion (`std::map::emplace` for a key not present):
inserts `(k, v)` before the first strictly greater key. -/
def mapInsert {κ α : Type} [LinearOrder κ] (k : κ) (v : α) :
    List (κ × α) → List (κ × α)
  | [] => [(k, v)]
  | (k', v') :: rest =>
    if k < k' then (k, v) :: (k', v') :: rest
    else (k', v') :: mapInsert k v rest

/-- Ordered-map key update (`map.at(k)` mutation): applies `f` to the value at
the first occurrence of key `k`, leaves the map unchanged if `k` is absent. -/
def mapUpdate {κ α : Type} [DecidableEq κ] (k : κ) (f : α → α) :
    List (κ × α) → List (κ × α)
  | [] => []
  | (k', v) :: rest =>
    if k' = k then (k', f v) :: rest else (k', v) :: mapUpdate k f rest

/-- A `protos::SubscriptionServiceUpdate` message. -/
structure SubscriptionServiceUpdate where
  service_name : String
  role_name : String
  nonce : Nat
  /-- The `(tag, instance_id)` pairs, one per member, in tag order. -/
  entries : List (Nat × Nat)
  deriving DecidableEq, Repr

/-- Server-side per-role state (fields of `Role`, with `std::map` values
represented by the mapped instance's `instance_id`). -/
structure Role where
  m_service_name : String
  m_role_name : String
  m_members : List (Nat × Nat)
  m_subscribers : List (Nat × Nat)
  m_nonce : Nat
  m_last_update : Nat
  deriving DecidableEq, Repr

/-- Constructor `Role::Role(service_name, role_name)` with the in-header field
initializers `m_nonce{1}`, `m_last_update{1}`. -/
def Role.init (service_name role_name : String) : Role :=
  ⟨service_name, role_name, [], [], 1, 1⟩

/-- Modelled from the spec: the body of `Role::add_member` is not in the
sources.  Spec §4.C: "`add_member(tag, instance)`: if tag not already present,
insert and `nonce++`." -/
def Role.add_member (r : Role) (tag instance_id : Nat) : Role :=
  if (r.m_members.map Prod.fst).contains tag then r
  else { r with m_members := mapInsert tag instance_id r.m_members,
                m_nonce := r.m_nonce + 1 }

/-- Modelled from the spec: the body of `Role::add_subscriber` is not in the
sources.  Spec §4.C: "`add_subscriber(tag, instance)`: analogous; `nonce++`." -/
def Role.add_subscriber (r : Role) (tag instance_id : Nat) : Role :=
  if (r.m_subscribers.map Prod.fst).contains tag then r
  else { r with m_subscribers := mapInsert tag instance_id r.m_subscribers,
                m_nonce := r.m_nonce + 1 }

/-- Modelled from the spec: the body of `Role::drop_tag` is not in the
sources.  Spec §4.C: "`drop_tag(tag)`: removes from either map; if removed
from anywhere, `nonce++`." -/
def Role.drop_tag (r : Role) (tag : Nat) : Role :=
  let members := r.m_members.filter (fun p => p.1 != tag)
  let subscribers := r.m_subscribers.filter (fun p => p.1 != tag)
  if members.length != r.m_members.length
      || subscribers.length != r.m_subscribers.length then
    { r with m_members := members, m_subscribers := subscribers,
             m_nonce := r.m_nonce + 1 }
  else r

/-- Builder `Role::make_update`: `{service_name, role_name, nonce,
entries=[(tag, instance_id) for each member in tag order]}` (spec §4.C). -/
def Role.make_update (r : Role) : SubscriptionServiceUpdate :=
  ⟨r.m_service_name, r.m_role_name, r.m_nonce, r.m_members⟩

/-- Modelled from the spec: the body of `Role::issue_update` is not in the
sources.  Spec §4.C: "if `last_update == nonce`, no-op.  Otherwise build a
`SubscriptionServiceUpdate` message ..., send it to every subscriber's stream
writer, then set `last_update = nonce`."  The diffusion is returned as
`some (update, recipient instance_ids in subscriber-map order)` when one is
emitted, `none` on the no-op path. -/
def Role.issue_update (r : Role) :
    Role × Option (SubscriptionServiceUpdate × List Nat) :=
  if r.m_last_update = r.m_nonce then (r, none)
  else ({ r with m_last_update := r.m_nonce },
        some (r.make_update, r.m_subscribers.map Prod.snd))

/-- One mutating call on a `Role` (the operations named by the spec). -/
inductive RoleOp where
  | addMember (tag instance_id : Nat)
  | addSubscriber (tag instance_id : Nat)
  | dropTag (tag : Nat)
  | issueUpdate
  deriving DecidableEq, Repr

def Role.applyOp (r : Role) : RoleOp → Role
  | RoleOp.addMember t i => r.add_member t i
  | RoleOp.addSubscriber t i => r.add_subscriber t i
  | RoleOp.dropTag t => r.drop_tag t
  | RoleOp.issueUpdate => r.issue_update.1

def Role.applyOps (r : Role) (ops : List RoleOp) : Role :=
  ops.foldl Role.applyOp r

/-! ## Theorems -/

/-- The materialized set has the item count exactly when the items are
pairwise distinct. -/
theorem toFinset_card_eq_length_iff_nodup {T : Type} [DecidableEq T]
    (items : List T) : items.toFinset.card = items.length ↔ items.Nodup := by
  rw [List.card_toFinset]
  constructor
  · intro h
    have hd : items.dedup = items := (List.dedup_sublist items).eq_of_length h
    exact hd ▸ List.nodup_dedup items
  · intro h
    rw [List.dedup_eq_self.mpr h]

/-- C5: `check_unique_repeated_field` fails if and only if the repeated field
contains at least one duplicate element (the materialized set's size differs
from the item count), and on success returns the set of the items. -/
theorem check_unique_repeated_field_spec {T : Type} [DecidableEq T]
    (items : List T) :
    check_unique_repeated_field items =
      if items.Nodup then Except.ok items.toFinset
      else Except.error
        (IError.create "non-unique repeated field; duplicated detected") := by
  unfold check_unique_repeated_field
  by_cases h : items.Nodup
  · rw [if_pos h, if_neg]
    simp [(toFinset_card_eq_length_iff_nodup items).mpr h]
  · rw [if_neg h, if_pos]
    exact fun hc => h ((toFinset_card_eq_length_iff_nodup items).mp hc)

/-- C2: for every 64-bit tag `t` and service id `s`, `valid_tag` holds iff the
upper 32 bits equal `s` and the low 16 bits are nonzero. -/
theorem valid_tag_spec (service_id tag : Nat) (h : tag < 2 ^ 64) :
    valid_tag service_id tag = true ↔
      (tag >>> 32 = service_id ∧ tag &&& 0xFFFF ≠ 0) := by
  simp [valid_tag]

/-- Witness for C2 at `tag = (1 <<< 32) ||| 1`, `service_id = 1`. -/
theorem valid_tag_spec_witness :
    (4294967297 : Nat) < 2 ^ 64 ∧
      (valid_tag 1 4294967297 = true ↔
        ((4294967297 : Nat) >>> 32 = 1 ∧ (4294967297 : Nat) &&& 0xFFFF ≠ 0)) :=
  ⟨by norm_num, valid_tag_spec 1 4294967297 (by norm_num)⟩

/-- C4: `unpack_request` surfaces an error payload as the failure result,
returns a typed payload that unpacks cleanly, and otherwise fails with the
unexpected-message-type error. -/
theorem unpack_request_spec {A T : Type} [Inhabited A]
    (UnpackTo : A → Option T) (msg : EventMsg A) :
    unpack_request UnpackTo msg =
      match msg.payload with
      | EventPayload.error e => Except.error (IError.create e.message)
      | EventPayload.message b =>
        match UnpackTo b with
        | some v => Except.ok v
        | Option.none => Except.error
            (IError.create "unable to unpack request; client an unexpected message type")
      | EventPayload.none => Except.error
          (IError.create "unable to unpack request; client an unexpected message type") := by
  cases hp : msg.payload with
  | none =>
    simp [unpack_request, EventMsg.has_message, EventMsg.has_error, hp]
  | message b =>
    cases hu : UnpackTo b with
    | some v =>
      simp [unpack_request, EventMsg.has_message, EventMsg.message, hp, hu]
    | none =>
      simp [unpack_request, EventMsg.has_message, EventMsg.has_error,
        EventMsg.message, hp, hu]
  | error e =>
    simp [unpack_request, EventMsg.has_message, EventMsg.has_error,
      EventMsg.error, hp]

/-- C3 counterexample: a failed unary handler result is written back with
`event_type = Response` (the `protos::Error` travels inside the payload), not
with `event_type = Error` as the claim states. -/
theorem unary_response_event_type_counterexample :
    (unary_response (fun e : ProtoError => AnyPacked.packedError e) 7 true
        (Except.error (IError.create "boom"))).1.event ≠ EventType.Error := by
  decide

/-- C3 amended: for every failed unary handler result, the server writes back
on the originating stream an envelope whose `event_type` is `Response`, whose
payload is the packed `protos::Error`, and whose tag equals the request
envelope's tag; the write result is success, so the stream is not torn down. -/
theorem unary_response_failure_spec {M : Type} (pack : M → AnyPacked)
    (event_tag : Nat) (e : IError) :
    unary_response pack event_tag true (Except.error e) =
      (⟨event_tag, EventType.Response,
        AnyPacked.packedError ⟨ErrorCode.InstanceError, e.message⟩⟩,
       Except.ok ()) := rfl

/-- C10: for every failed unary handler result — whatever the internal error
code or message — the `protos::Error` packed into the written envelope carries
code `InstanceError`. -/
theorem unary_response_error_code_spec {M : Type} (pack : M → AnyPacked)
    (event_tag : Nat) (write_status : Bool) (e : IError) :
    (unary_response pack event_tag write_status (Except.error e)).1.message =
      AnyPacked.packedError ⟨ErrorCode.InstanceError, e.message⟩ := rfl

/-- Every single `Role` operation preserves `last_update ≤ nonce`. -/
theorem Role.applyOp_last_update_le (r : Role) (op : RoleOp)
    (h : r.m_last_update ≤ r.m_nonce) :
    (r.applyOp op).m_last_update ≤ (r.applyOp op).m_nonce := by
  cases op with
  | addMember t i =>
    simp only [Role.applyOp, Role.add_member]
    split <;> (try simp) <;> omega
  | addSubscriber t i =>
    simp only [Role.applyOp, Role.add_subscriber]
    split <;> (try simp) <;> omega
  | dropTag t =>
    simp only [Role.applyOp, Role.drop_tag]
    split <;> (try simp) <;> omega
  | issueUpdate =>
    simp only [Role.applyOp, Role.issue_update]
    split <;> (try simp) <;> omega

/-- Invariant preservation: `last_update ≤ nonce` holds after any sequence of `Role` operations. -/
theorem Role.applyOps_last_update_le (r : Role) (ops : List RoleOp)
    (h : r.m_last_update ≤ r.m_nonce) :
    (r.applyOps ops).m_last_update ≤ (r.applyOps ops).m_nonce := by
  induction ops generalizing r with
  | nil => exact h
  | cons op ops ih =>
    exact ih (r.applyOp op) (r.applyOp_last_update_le op h)

/-- For a role satisfying the invariant, `issue_update` emits a diffusion iff
`last_update < nonce`, leaves `last_update = nonce`, and is a no-op exactly
when no diffusion is emitted. -/
theorem Role.issue_update_dirty_spec (r : Role)
    (h : r.m_last_update ≤ r.m_nonce) :
    (r.issue_update.2.isSome ↔ r.m_last_update < r.m_nonce) ∧
    r.issue_update.1.m_last_update = r.issue_update.1.m_nonce ∧
    (r.issue_update.2 = none ↔ r.issue_update.1 = r) := by
  unfold Role.issue_update
  by_cases he : r.m_last_update = r.m_nonce
  · simp [he]
  · rw [if_neg he]
    refine ⟨?_, rfl, ?_⟩
    · simp only [Option.isSome_some, true_iff]
      exact Nat.lt_of_le_of_ne h he
    · apply iff_of_false
      · simp
      · intro hc
        have hl : r.m_nonce = r.m_last_update :=
          congrArg Role.m_last_update hc
        exact he hl.symm

/-- C1: for every `Role`, after any sequence of `add_member`,
`add_subscriber`, `drop_tag` and `issue_update` calls the invariant
`last_update ≤ nonce` holds; `issue_update` emits a diffusion iff
`last_update < nonce`, leaves `last_update = nonce`, and is a no-op (state
unchanged, nothing sent) exactly when `last_update = nonce`. -/
theorem role_update_invariant (sname rname : String) (ops : List RoleOp) :
    (Role.applyOps (Role.init sname rname) ops).m_last_update
        ≤ (Role.applyOps (Role.init sname rname) ops).m_nonce ∧
    ((Role.applyOps (Role.init sname rname) ops).issue_update.2.isSome ↔
      (Role.applyOps (Role.init sname rname) ops).m_last_update
        < (Role.applyOps (Role.init sname rname) ops).m_nonce) ∧
    (Role.applyOps (Role.init sname rname) ops).issue_update.1.m_last_update
      = (Role.applyOps (Role.init sname rname) ops).issue_update.1.m_nonce ∧
    ((Role.applyOps (Role.init sname rname) ops).issue_update.2 = none ↔
      (Role.applyOps (Role.init sname rname) ops).issue_update.1
        = Role.applyOps (Role.init sname rname) ops) := by
  have h := Role.applyOps_last_update_le (Role.init sname rname) ops
    (Nat.le_refl 1)
  have hs := Role.issue_update_dirty_spec _ h
  exact ⟨h, hs.1, hs.2.1, hs.2.2⟩

/-! ### `SubscriptionService` (src/src/internal/control_plane/server/subscription_service.hpp:42-67)
and its `TaggedService`/`Tagged` base
(src/src/internal/control_plane/server/tagged_service.hpp:36-102)

The headers (in the sources) give the state: `Tagged` holds
`m_tag{next()}` (a fresh service id shifted into the upper 32 bits, spec §4.A)
and `m_uid{1}`; `TaggedService` holds the `instance_id → tag` multimap;
`SubscriptionService` holds the name and the role map, fixed at construction.
The method bodies are not part of the sources; they are modelled from the spec
(§4.A, §4.B, §4.D). -/

/-- Server-side subscription-service state.  `m_tag` is the `Tagged` base
field, i.e. `service_id <<< 32`; `m_uid` is the per-service 16-bit counter,
starting at 1. -/
structure SubscriptionService where
  m_name : String
  m_tag : Nat
  m_uid : Nat
  /-- Field `TaggedService::m_instance_tags`, the `instance_id → tag` multimap. -/
  m_instance_tags : List (Nat × Nat)
  m_roles : List (String × Role)
  deriving DecidableEq, Repr

/-- Modelled from the spec: `SubscriptionService::SubscriptionService(name,
roles)` builds the `Role` objects eagerly (§4.D); the `Tagged` base draws a
fresh `service_id` and starts the unique counter at 1 (§4.A, header field
initializers). `roles` is the iteration order of the requested
`std::set<std::string>` (sorted, duplicate-free), so inserting the roles in
that order builds the role `std::map` with exactly these keys in this order. -/
def SubscriptionService.create (name : String) (service_id : Nat)
    (roles : List String) : SubscriptionService :=
  { m_name := name
    m_tag := service_id <<< 32
    m_uid := 1
    m_instance_tags := []
    m_roles := roles.map (fun r => (r, Role.init name r)) }

/-- Modelled from the spec: `has_role(name)` is the pure query "the role map
contains `name`" (§4.D). -/
def SubscriptionService.has_role (s : SubscriptionService)
    (role : String) : Bool :=
  (s.m_roles.map Prod.fst).contains role

/-- Modelled from the spec: `compare_roles(set)` compares the requested role
set against the service's role set by string equality (§4.D); both sides are
`std::set` iterations, i.e. sorted duplicate-free lists. -/
def SubscriptionService.compare_roles (s : SubscriptionService)
    (roles : List String) : Bool :=
  s.m_roles.map Prod.fst == roles

/-- Modelled from the spec: `register_instance(instance, role,
subscribe_to_roles)` (§4.D): validate `role` and every subscribed role exist
(`InvalidRole` otherwise), allocate one tag via the `Tagged` base
(`TagExhausted` once the 16-bit counter is spent, §4.A), record it in the
instance multimap, add the instance as a member of `role` and as a subscriber
of each role in `subscribe_to_roles`. -/
def SubscriptionService.register_instance (s : SubscriptionService)
    (instance_id : Nat) (role : String) (subscribe_to_roles : List String) :
    Except IError (SubscriptionService × Nat) :=
  if !s.has_role role then
    Except.error ⟨ErrorCode.InvalidRole, "invalid role: " ++ role⟩
  else if subscribe_to_roles.any (fun r => !s.has_role r) then
    Except.error ⟨ErrorCode.InvalidRole, "invalid subscription role"⟩
  else if s.m_uid > 0xFFFF then
    Except.error ⟨ErrorCode.TagExhausted, "tag space exhausted"⟩
  else
    let tag := s.m_tag ||| (s.m_uid &&& 0xFFFF)
    let roles := mapUpdate role (fun rl => rl.add_member tag instance_id)
      s.m_roles
    let roles := subscribe_to_roles.foldl
      (fun m r => mapUpdate r (fun rl => rl.add_subscriber tag instance_id) m)
      roles
    Except.ok
      ({ s with
          m_uid := s.m_uid + 1
          m_instance_tags := mapInsert instance_id tag s.m_instance_tags
          m_roles := roles },
       tag)

/-- Modelled from the spec: `do_issue_update()` calls `issue_update()` on every
role (§4.D); the update scheduler drives it once per tick (§4.G).  Returns the
new state together with the `(recipient instance_id, update)` sends, in role
iteration order. -/
def SubscriptionService.do_issue_update (s : SubscriptionService) :
    SubscriptionService × List (Nat × SubscriptionServiceUpdate) :=
  let folded := s.m_roles.foldl
    (fun (acc : List (String × Role) × List (Nat × SubscriptionServiceUpdate))
         (kv : String × Role) =>
      match kv.2.issue_update with
      | (r, none) => (acc.1 ++ [(kv.1, r)], acc.2)
      | (r, some (upd, recipients)) =>
        (acc.1 ++ [(kv.1, r)], acc.2 ++ recipients.map (fun i => (i, upd))))
    ([], [])
  ({ s with m_roles := folded.1 }, folded.2)

/-! ### Scenario S3 (spec §8): pub/sub diffusion on service `"demo"`.

The service is created fresh, so the `Tagged` base draws `service_id = 1`
(spec §4.A: the process-global counter starts at 1):
`T1 = (1 <<< 32) ||| 1 = 4294967297`, `T2 = (1 <<< 32) ||| 2 = 4294967298`. -/

def s3_service0 : SubscriptionService :=
  SubscriptionService.create "demo" 1 ["pub", "sub"]

/-- Instance 1 registers as member of `"pub"` and subscriber of `"sub"`. -/
def s3_reg1 : Except IError (SubscriptionService × Nat) :=
  s3_service0.register_instance 1 "pub" ["sub"]

def s3_service1 : SubscriptionService :=
  match s3_reg1 with
  | Except.ok (s, _) => s
  | Except.error _ => s3_service0

/-- Instance 2 registers as member of `"sub"`, subscribing to nothing. -/
def s3_reg2 : Except IError (SubscriptionService × Nat) :=
  s3_service1.register_instance 2 "sub" []

def s3_service2 : SubscriptionService :=
  match s3_reg2 with
  | Except.ok (s, _) => s
  | Except.error _ => s3_service1

/-- First scheduler tick after both registrations. -/
def s3_tick1 : SubscriptionService × List (Nat × SubscriptionServiceUpdate) :=
  s3_service2.do_issue_update

/-- Second scheduler tick, no intervening mutation. -/
def s3_tick2 : SubscriptionService × List (Nat × SubscriptionServiceUpdate) :=
  s3_tick1.1.do_issue_update

/-- C6 counterexample: at the concrete S3 scenario the first tick does *not*
deliver an update with nonce 2 — instance 1's subscription to `"sub"` already
bumped that role's nonce (spec §4.C / the `Role` header: "When either list is
updated, the Role's nonce is incremented"), so the update carries nonce 3. -/
theorem s3_diffusion_counterexample :
    s3_tick1.2 ≠
      [(1, { service_name := "demo", role_name := "sub", nonce := 2,
             entries := [(4294967298, 2)] })] := by
  decide

/-- C6 amended: in scenario S3 the registrations yield tags
`T1 = 4294967297` and `T2 = 4294967298`; the first tick delivers to instance 1
exactly one `SubscriptionServiceUpdate` for role `"sub"` with nonce 3 and
entries `[(T2, 2)]`, delivers nothing to instance 2, and a second tick with no
intervening mutation delivers nothing. -/
theorem s3_diffusion_spec :
    s3_reg1.toOption.map Prod.snd = some 4294967297 ∧
    s3_reg2.toOption.map Prod.snd = some 4294967298 ∧
    s3_tick1.2 =
      [(1, { service_name := "demo", role_name := "sub", nonce := 3,
             entries := [(4294967298, 2)] })] ∧
    s3_tick2.2 = [] := by
  refine ⟨by decide, by decide, by decide, by decide⟩

/-! ### Server connection state and the unary handlers
(src/src/internal/control_plane/server.hpp:89-116)

The `Server` fields (in the sources) are: `m_streams`, `m_instances`,
`m_instances_by_stream`, `m_ucx_worker_addresses` and
`m_subscription_services`.  The bodies of the unary handlers are not part of
the sources; they are modelled from the spec (§4.E, §4.F, §8 S1/S2/S6). -/

/-- A registered worker endpoint (`server::ClientInstance`, spec §3). -/
structure ClientInstance where
  instance_id : Nat
  stream_id : Nat
  worker_address : String
  deriving DecidableEq, Repr

/-- The server's guarded global state (streams are represented by their
ids; `std::set<std::string>` by the list of its elements). -/
structure ServerState where
  m_streams : List Nat
  m_instances : List (Nat × ClientInstance)
  m_instances_by_stream : List (Nat × Nat)
  m_ucx_worker_addresses : List String
  m_subscription_services : List (String × SubscriptionService)
  m_next_instance_id : Nat
  m_next_service_id : Nat
  deriving DecidableEq, Repr

/-- A `protos::RegisterWorkersResponse{instance_ids, machine_id}`. -/
structure RegisterWorkersResponse where
  machine_id : Nat
  instance_ids : List Nat
  deriving DecidableEq, Repr

/-- A `protos::Ack`. -/
inductive Ack where
  | mk
  deriving DecidableEq, Repr

/-- Modelled from the spec: the validation pass of `unary_register_workers`
("Validate UCX addresses are unique across the request AND against
`ucx_worker_addresses`", §4.F): returns the first address of the request that
is already taken globally or repeated inside the request. -/
def find_duplicate_address (global : List String) : List String → Option String
  | [] => none
  | a :: rest =>
    if global.contains a || rest.contains a then some a
    else find_duplicate_address global rest

/-- Modelled from the spec: the body of `Server::unary_register_workers` is
not in the sources (only its declaration at server.hpp:112).  Spec §4.F:
validate UCX addresses are unique across the request and against
`ucx_worker_addresses`; allocate one `instance_id` per address; bind to
stream; emit `RegisterWorkersResponse{instance_ids, machine_id}`.  Spec §8 S2:
a duplicated address fails with `Error{DuplicateUcxAddress, address}` and
leaves the set unchanged. -/
def unary_register_workers (st : ServerState) (stream_id : Nat)
    (addresses : List String) :
    ServerState × Except IError RegisterWorkersResponse :=
  match find_duplicate_address st.m_ucx_worker_addresses addresses with
  | some a =>
    (st, Except.error ⟨ErrorCode.DuplicateUcxAddress,
      "duplicate ucx worker address: " ++ a⟩)
  | none =>
    let ids := (List.range addresses.length).map
      (fun i => st.m_next_instance_id + i)
    let new_instances := (ids.zip addresses).map
      (fun p => (p.1, ClientInstance.mk p.1 stream_id p.2))
    ({ st with
        m_ucx_worker_addresses := st.m_ucx_worker_addresses ++ addresses
        m_instances := st.m_instances ++ new_instances
        m_instances_by_stream :=
          st.m_instances_by_stream ++ ids.map (fun i => (stream_id, i))
        m_next_instance_id := st.m_next_instance_id + addresses.length },
     Except.ok ⟨stream_id, ids⟩)

/-- Modelled from the spec: the body of
`Server::unary_create_subscription_service` is not in the sources (only its
declaration at server.hpp:113).  Spec §4.F: "If name absent, create with the
requested role set.  If present, accept iff role sets match; otherwise error"
(§8 S6: the mismatch error is `ServiceMismatch`); the match is decided by the
pure query `compare_roles`.  `requested_roles` is the iteration of the
requested role-name `std::set` (sorted, duplicate-free). -/
def unary_create_subscription_service (st : ServerState) (name : String)
    (requested_roles : List String) : ServerState × Except IError Ack :=
  match List.lookup name st.m_subscription_services with
  | some service =>
    if service.compare_roles requested_roles then (st, Except.ok Ack.mk)
    else (st, Except.error ⟨ErrorCode.ServiceMismatch,
      "subscription service " ++ name ++
        " already exists with a different set of roles"⟩)
  | none =>
    ({ st with
        m_subscription_services := mapInsert name
          (SubscriptionService.create name st.m_next_service_id requested_roles)
          st.m_subscription_services
        m_next_service_id := st.m_next_service_id + 1 },
     Except.ok Ack.mk)

/-- Soundness of the duplicate scan: a found address belongs to the request
and is either already taken globally or repeated inside the request. -/
theorem find_duplicate_address_sound (global : List String) :
    ∀ (l : List String) (a : String),
      find_duplicate_address global l = some a →
      a ∈ l ∧ (a ∈ global ∨ ¬ l.Nodup) := by
  intro l
  induction l with
  | nil => intro a h; exact absurd h (by simp [find_duplicate_address])
  | cons b rest ih =>
    intro a h
    simp only [find_duplicate_address] at h
    split at h
    · next hc =>
      injection h with h
      subst h
      have hc' : b ∈ global ∨ b ∈ rest := by simpa using hc
      rcases hc' with h1 | h2
      · exact ⟨List.mem_cons_self _ _, Or.inl h1⟩
      · refine ⟨List.mem_cons_self _ _, Or.inr ?_⟩
        exact fun hn => (List.nodup_cons.mp hn).1 h2
    · next hc =>
      obtain ⟨hmem, hrest⟩ := ih a h
      refine ⟨List.mem_cons_of_mem _ hmem, ?_⟩
      rcases hrest with h1 | h2
      · exact Or.inl h1
      · exact Or.inr (fun hn => h2 (List.Nodup.of_cons hn))

/-- Completeness of the duplicate scan: a request holding a globally taken
address is flagged. -/
theorem find_duplicate_address_complete (global : List String) :
    ∀ (l : List String), (∃ a ∈ l, a ∈ global) →
      (find_duplicate_address global l).isSome := by
  intro l
  induction l with
  | nil => rintro ⟨a, ha, _⟩; cases ha
  | cons b rest ih =>
    rintro ⟨a, ha, hg⟩
    simp only [find_duplicate_address]
    split
    · simp
    · next hc =>
      simp only [Bool.or_eq_true, not_or] at hc
      apply ih
      rcases List.mem_cons.mp ha with rfl | hmem
      · exact absurd (by simpa using hg) hc.1
      · exact ⟨a, hmem, hg⟩

/-- C7: a `RegisterWorkers` request containing a UCX worker address already
present in the global `ucx_worker_addresses` set fails with a
`DuplicateUcxAddress` error naming a duplicated address, and the whole server
state — the UCX address set and the instance registry included — is left
unchanged. -/
theorem register_workers_duplicate_spec (st : ServerState) (stream_id : Nat)
    (addresses : List String)
    (h : ∃ a ∈ addresses, a ∈ st.m_ucx_worker_addresses) :
    ∃ a ∈ addresses,
      (a ∈ st.m_ucx_worker_addresses ∨ ¬ addresses.Nodup) ∧
      unary_register_workers st stream_id addresses =
        (st, Except.error ⟨ErrorCode.DuplicateUcxAddress,
          "duplicate ucx worker address: " ++ a⟩) := by
  have hsome := find_duplicate_address_complete st.m_ucx_worker_addresses
    addresses h
  obtain ⟨a, ha⟩ := Option.isSome_iff_exists.mp hsome
  obtain ⟨hmem, hdup⟩ := find_duplicate_address_sound st.m_ucx_worker_addresses
    addresses a ha
  refine ⟨a, hmem, hdup, ?_⟩
  simp only [unary_register_workers]
  rw [ha]

/-- Witness for C7: one prior worker owns `"ucx://a"`; a second request for
the same address is rejected and the state is untouched. -/
theorem register_workers_duplicate_witness :
    (∃ a ∈ ["ucx://a"],
      a ∈ (ServerState.mk [] [] [] ["ucx://a"] [] 1 1).m_ucx_worker_addresses) ∧
    ∃ a ∈ ["ucx://a"],
      (a ∈ (ServerState.mk [] [] [] ["ucx://a"] [] 1 1).m_ucx_worker_addresses ∨
        ¬ (["ucx://a"] : List String).Nodup) ∧
      unary_register_workers (ServerState.mk [] [] [] ["ucx://a"] [] 1 1) 2
          ["ucx://a"] =
        (ServerState.mk [] [] [] ["ucx://a"] [] 1 1,
         Except.error ⟨ErrorCode.DuplicateUcxAddress,
           "duplicate ucx worker address: " ++ a⟩) :=
  ⟨⟨"ucx://a", by simp, by simp⟩,
   register_workers_duplicate_spec (ServerState.mk [] [] [] ["ucx://a"] [] 1 1)
     2 ["ucx://a"] ⟨"ucx://a", by simp, by simp⟩⟩

/-- C8: when `CreateSubscriptionService` names an existing service, the
request leaves the state unchanged and is accepted exactly when
`compare_roles` accepts the requested role set; otherwise it fails with
`ServiceMismatch`.  For sorted duplicate-free role iterations (the `std::set`
iterations both sides are), `compare_roles` accepts iff the two role-name
sets are string-equal. -/
theorem create_subscription_service_existing_spec (st : ServerState)
    (name : String) (requested : List String) (service : SubscriptionService)
    (h : List.lookup name st.m_subscription_services = some service)
    (hsvc : (service.m_roles.map Prod.fst).Sorted (· < ·))
    (hreq : requested.Sorted (· < ·)) :
    unary_create_subscription_service st name requested =
      (if service.compare_roles requested then (st, Except.ok Ack.mk)
       else (st, Except.error ⟨ErrorCode.ServiceMismatch,
         "subscription service " ++ name ++
           " already exists with a different set of roles"⟩)) ∧
    (service.compare_roles requested = true ↔
      ∀ x, x ∈ service.m_roles.map Prod.fst ↔ x ∈ requested) := by
  constructor
  · simp only [unary_create_subscription_service]
    rw [h]
  · unfold SubscriptionService.compare_roles
    rw [beq_iff_eq]
    constructor
    · intro he x
      rw [he]
    · intro hx
      have hperm := List.perm_of_nodup_nodup_toFinset_eq hsvc.nodup hreq.nodup
        (Finset.ext fun x => by
          simp only [List.mem_toFinset]
          exact hx x)
      exact List.eq_of_perm_of_sorted hperm hsvc hreq

/-- The concrete existing service of scenario S6: `"x"` with roles
`{"a","b"}`. -/
def s6_service : SubscriptionService := SubscriptionService.create "x" 1 ["a", "b"]

/-- The server state of scenario S6 after client C1 created `"x"`. -/
def s6_state : ServerState := ServerState.mk [] [] [] [] [("x", s6_service)] 1 2

/-- A sorted pair of strings, via the list order on the underlying
characters. -/
theorem sorted_pair_of_toList_lt {a b : String} (h : a.toList < b.toList) :
    ([a, b] : List String).Sorted (· < ·) := by
  have hab : a < b := String.lt_iff_toList_lt.mpr h
  exact List.sorted_cons.mpr ⟨by simpa using hab, List.sorted_singleton b⟩

/-- Witness for C8: client C3 requests `"x"` with roles `{"a","c"}` against
the existing `{"a","b"}`; the request is rejected with `ServiceMismatch` and
the state is unchanged. -/
theorem create_subscription_service_existing_witness :
    (unary_create_subscription_service s6_state "x" ["a", "c"] =
      (if s6_service.compare_roles ["a", "c"] then (s6_state, Except.ok Ack.mk)
       else (s6_state, Except.error ⟨ErrorCode.ServiceMismatch,
         "subscription service " ++ "x" ++
           " already exists with a different set of roles"⟩)) ∧
    (s6_service.compare_roles ["a", "c"] = true ↔
      ∀ x, x ∈ s6_service.m_roles.map Prod.fst ↔ x ∈ ["a", "c"])) ∧
    s6_service.compare_roles ["a", "c"] = false :=
  ⟨create_subscription_service_existing_spec s6_state "x" ["a", "c"] s6_service
      rfl (sorted_pair_of_toList_lt (by decide))
      (sorted_pair_of_toList_lt (by decide)),
   by decide⟩

/-! ### `PipelineInstance` reconciler
(src/cpp/mrc/src/internal/pipeline/pipeline_instance.hpp:47-101)

The header (in the sources) declares the state — `m_segments :
std::map<SegmentAddress, SegmentInstance>` and `m_manifold_instances :
std::map<PortName, ManifoldInstance>` — and the operations `create_segment`,
`stop_segment`, `join_segment`, `remove_segment`, `get_manifold`, `update`;
the header comment documents that `update` is idempotent and that created
objects are staged and mass-started after all have been created.  The method
bodies are not part of the sources; the convergence step is modelled from the
spec (§4.H). -/

/-- Segment lifecycle phases (spec §4.I). -/
inductive SegPhase where
  | created
  | running
  | stopping
  | joined
  deriving DecidableEq, Repr

/-- A live `segment::SegmentInstance`, as far as the reconciler observes it. -/
structure SegmentInstance where
  partition_id : Nat
  phase : SegPhase
  deriving DecidableEq, Repr

/-- A live `ManifoldInstance` for one port. -/
structure ManifoldInstance where
  port_name : String
  deriving DecidableEq, Repr

/-- One segment of the declarative target state: its address, partition, and
the manifolds (ports) it references. -/
structure SegmentSpec where
  address : Nat
  partition_id : Nat
  ports : List String
  deriving DecidableEq, Repr

/-- The declarative target state received from the control plane. -/
structure TargetState where
  segments : List SegmentSpec
  deriving DecidableEq, Repr

/-- The reconciler's live state: the two maps owned by `PipelineInstance`. -/
structure PipelineInstanceState where
  m_segments : List (Nat × SegmentInstance)
  m_manifold_instances : List (String × ManifoldInstance)
  deriving DecidableEq, Repr

/-- A start or stop transition performed on a segment by `update()`. -/
inductive SegTransition where
  | start (address : Nat)
  | stop (address : Nat)
  deriving DecidableEq, Repr

/-- Modelled from the spec: `create_segment(address, partition_id)`
instantiates a `SegmentInstance` and inserts it into the owning map;
idempotent — if an instance already exists at `address`, no-op (§4.H). -/
def PipelineInstanceState.create_segment (p : PipelineInstanceState)
    (address partition_id : Nat) : PipelineInstanceState :=
  if (p.m_segments.map Prod.fst).contains address then p
  else { p with
          m_segments :=
            mapInsert address ⟨partition_id, SegPhase.created⟩ p.m_segments }

/-- Modelled from the spec: `get_manifold(port_name)` returns the shared
manifold for `port_name`, constructing it lazily if absent (§4.H). -/
def PipelineInstanceState.get_manifold (p : PipelineInstanceState)
    (port_name : String) : PipelineInstanceState × ManifoldInstance :=
  match List.lookup port_name p.m_manifold_instances with
  | some m => (p, m)
  | none =>
    ({ p with m_manifold_instances :=
        p.m_manifold_instances ++ [(port_name, ⟨port_name⟩)] },
     ⟨port_name⟩)

/-- Step 1 of `update()`: the target segments absent locally, which are
created and staged for a mass start (§4.H). -/
def update_staged (target : TargetState) (p : PipelineInstanceState) :
    List SegmentSpec :=
  target.segments.filter
    (fun ts => !((p.m_segments.map Prod.fst).contains ts.address))

/-- Step 2 of `update()`: the local segment addresses absent from the target,
which are stopped, joined and removed (§4.H). -/
def update_stopped (target : TargetState) (p : PipelineInstanceState) :
    List Nat :=
  (p.m_segments.map Prod.fst).filter
    (fun a => !((target.segments.map SegmentSpec.address).contains a))

/-- Modelled from the spec: the convergence step of `update()` (§4.H):
1. create every target segment absent locally (staged);
2. remove every local segment absent from the target (after stop → join);
3. ensure every manifold referenced by a staged segment exists via
   `get_manifold`;
4. mass-start all staged segments only after all have been created. -/
def update_converged (target : TargetState) (p : PipelineInstanceState) :
    PipelineInstanceState :=
  let staged := update_staged target p
  let p1 := staged.foldl
    (fun q ts => q.create_segment ts.address ts.partition_id) p
  let p2 : PipelineInstanceState :=
    ⟨p1.m_segments.filter
        (fun s => (target.segments.map SegmentSpec.address).contains s.1),
      p1.m_manifold_instances⟩
  let p3 := ((staged.map SegmentSpec.ports).flatten).foldl
    (fun q port => (q.get_manifold port).1) p2
  ⟨p3.m_segments.map
      (fun s => if (staged.map SegmentSpec.address).contains s.1
                then (s.1, { s.2 with phase := SegPhase.running }) else s),
    p3.m_manifold_instances⟩

/-- Modelled from the spec: `PipelineInstance::update()` (§4.H), returning the
converged live state together with the start/stop transitions performed. -/
def PipelineInstanceState.update (target : TargetState)
    (p : PipelineInstanceState) : PipelineInstanceState × List SegTransition :=
  (update_converged target p,
   ((update_staged target p).map SegmentSpec.address).map SegTransition.start
     ++ (update_stopped target p).map SegTransition.stop)

/-- Key membership after an ordered-map insertion. -/
theorem mapInsert_keys_mem {κ α : Type} [LinearOrder κ] (k : κ) (v : α) :
    ∀ (m : List (κ × α)) (a : κ),
      a ∈ (mapInsert k v m).map Prod.fst ↔ a = k ∨ a ∈ m.map Prod.fst := by
  intro m
  induction m with
  | nil => intro a; simp [mapInsert]
  | cons kv rest ih =>
    intro a
    simp only [mapInsert]
    split
    · simp [List.mem_cons]
    · simp only [List.map_cons, List.mem_cons, ih]
      tauto

/-- Key membership after `create_segment`. -/
theorem create_segment_keys_mem (p : PipelineInstanceState)
    (address partition_id a : Nat) :
    a ∈ ((p.create_segment address partition_id).m_segments.map Prod.fst) ↔
      a = address ∨ a ∈ p.m_segments.map Prod.fst := by
  unfold PipelineInstanceState.create_segment
  split
  · next hc =>
    have hmem : address ∈ p.m_segments.map Prod.fst := by simpa using hc
    constructor
    · exact Or.inr
    · rintro (rfl | h)
      · exact hmem
      · exact h
  · next hc => simpa using mapInsert_keys_mem address _ p.m_segments a

/-- Key membership after the staged-creation fold of `update()`. -/
theorem foldl_create_segment_keys_mem :
    ∀ (xs : List SegmentSpec) (q : PipelineInstanceState) (a : Nat),
      a ∈ ((xs.foldl
          (fun q ts => q.create_segment ts.address ts.partition_id)
          q).m_segments.map Prod.fst) ↔
        a ∈ xs.map SegmentSpec.address ∨ a ∈ q.m_segments.map Prod.fst := by
  intro xs
  induction xs with
  | nil => intro q a; simp
  | cons ts rest ih =>
    intro q a
    simp only [List.foldl_cons, List.map_cons, List.mem_cons]
    rw [ih, create_segment_keys_mem]
    tauto

/-- Operation `get_manifold` leaves the segment map untouched. -/
theorem get_manifold_segments (p : PipelineInstanceState) (port_name : String) :
    (p.get_manifold port_name).1.m_segments = p.m_segments := by
  unfold PipelineInstanceState.get_manifold
  cases List.lookup port_name p.m_manifold_instances <;> rfl

/-- The manifold-resolution fold of `update()` leaves the segment map
untouched. -/
theorem foldl_get_manifold_segments :
    ∀ (ports : List String) (q : PipelineInstanceState),
      (ports.foldl (fun q port => (q.get_manifold port).1) q).m_segments =
        q.m_segments := by
  intro ports
  induction ports with
  | nil => intro q; rfl
  | cons port rest ih =>
    intro q
    rw [List.foldl_cons, ih, get_manifold_segments]

/-- The segment map produced by the convergence step, with the
manifold-resolution fold removed. -/
theorem update_converged_segments (target : TargetState)
    (p : PipelineInstanceState) :
    (update_converged target p).m_segments =
      (((update_staged target p).foldl
          (fun q ts => q.create_segment ts.address ts.partition_id)
          p).m_segments.filter
        (fun s => (target.segments.map SegmentSpec.address).contains s.1)).map
        (fun s => if ((update_staged target p).map SegmentSpec.address).contains s.1
                  then (s.1, { s.2 with phase := SegPhase.running }) else s) := by
  simp only [update_converged]
  rw [foldl_get_manifold_segments]

/-- Every live segment after `update()` is named by the target. -/
theorem update_converged_keys_in_target (target : TargetState)
    (p : PipelineInstanceState) :
    ∀ s ∈ (update_converged target p).m_segments,
      (target.segments.map SegmentSpec.address).contains s.1 = true := by
  intro s hs
  rw [update_converged_segments] at hs
  obtain ⟨t, ht, rfl⟩ := List.mem_map.mp hs
  have ht' := List.mem_filter.mp ht
  cases hc : ((update_staged target p).map SegmentSpec.address).contains t.1 <;>
    simp only [hc, if_true, if_false, Bool.false_eq_true, ite_false, ite_true] <;>
    exact ht'.2

/-- Every target address is live after `update()`. -/
theorem update_converged_covers_target (target : TargetState)
    (p : PipelineInstanceState) :
    ∀ a ∈ target.segments.map SegmentSpec.address,
      a ∈ (update_converged target p).m_segments.map Prod.fst := by
  intro a ha
  rw [update_converged_segments, List.map_map]
  have hkeyf : ∀ s : Nat × SegmentInstance,
      (Prod.fst ∘ fun s =>
        if ((update_staged target p).map SegmentSpec.address).contains s.1
        then (s.1, { s.2 with phase := SegPhase.running }) else s) s = s.1 := by
    intro s
    simp only [Function.comp_apply]
    split <;> rfl
  rw [List.map_congr_left (fun s _ => hkeyf s)]
  obtain ⟨ts, hts, rfl⟩ := List.mem_map.mp ha
  have hkey : ts.address ∈
      ((update_staged target p).foldl
        (fun q ts => q.create_segment ts.address ts.partition_id)
        p).m_segments.map Prod.fst := by
    rw [foldl_create_segment_keys_mem]
    by_cases hp : ts.address ∈ p.m_segments.map Prod.fst
    · exact Or.inr hp
    · left
      refine List.mem_map.mpr ⟨ts, ?_, rfl⟩
      refine List.mem_filter.mpr ⟨hts, ?_⟩
      simp [update_staged, hp]
  obtain ⟨s, hsmem, hskey⟩ := List.mem_map.mp hkey
  have hmm : ts.address ∈ target.segments.map SegmentSpec.address :=
    List.mem_map.mpr ⟨ts, hts, rfl⟩
  have hpred : (target.segments.map SegmentSpec.address).contains s.1 = true := by
    rw [hskey]
    simpa using hmm
  exact List.mem_map.mpr ⟨s, List.mem_filter.mpr ⟨hsmem, hpred⟩, hskey⟩

/-- A state whose segments all belong to the target and which stages nothing
is a fixed point of the convergence step. -/
theorem update_converged_fixed (target : TargetState)
    (q : PipelineInstanceState)
    (hin : ∀ s ∈ q.m_segments,
      (target.segments.map SegmentSpec.address).contains s.1 = true)
    (hstaged : update_staged target q = []) :
    update_converged target q = q := by
  have hfilter : q.m_segments.filter
      (fun s => (target.segments.map SegmentSpec.address).contains s.1) =
      q.m_segments :=
    List.filter_eq_self.mpr hin
  simp only [update_converged]
  rw [hstaged]
  simp only [List.foldl_nil, List.map_nil, List.flatten_nil]
  rw [hfilter]
  have hf : ∀ s ∈ q.m_segments,
      (fun s : Nat × SegmentInstance =>
        if ([] : List Nat).contains s.1
        then (s.1, { s.2 with phase := SegPhase.running }) else s) s = s :=
    fun s _ => rfl
  rw [List.map_congr_left hf, List.map_id']

/-- C9: `update()` is idempotent — a second call with the same target state
yields the same live segment and manifold maps and performs no additional
start or stop transitions. -/
theorem pipeline_update_idempotent (target : TargetState)
    (p : PipelineInstanceState) :
    PipelineInstanceState.update target
        (PipelineInstanceState.update target p).1 =
      ((PipelineInstanceState.update target p).1, []) := by
  have hq : (PipelineInstanceState.update target p).1 =
      update_converged target p := rfl
  rw [hq]
  have hin := update_converged_keys_in_target target p
  have hcov := update_converged_covers_target target p
  have hstaged : update_staged target (update_converged target p) = [] := by
    simp only [update_staged]
    apply List.filter_eq_nil_iff.mpr
    intro ts hts
    have hmem : ts.address ∈
        (update_converged target p).m_segments.map Prod.fst :=
      hcov ts.address (List.mem_map.mpr ⟨ts, hts, rfl⟩)
    simp [hmem]
  have hstopped : update_stopped target (update_converged target p) = [] := by
    simp only [update_stopped]
    apply List.filter_eq_nil_iff.mpr
    intro a ha
    obtain ⟨s, hs, rfl⟩ := List.mem_map.mp ha
    have hc : ∃ x ∈ target.segments, x.address = s.1 := by
      simpa using hin s hs
    simp [hc]
  have hconv := update_converged_fixed target (update_converged target p)
    hin hstaged
  simp only [PipelineInstanceState.update]
  rw [hconv, hstaged, hstopped]
  simp
